import Mathlib

/-!
A verification development for the queue resolution and submission
orchestration subsystem of `EnvBatch` (`env_batch.py`): queue matching,
best-queue selection, queue-spec loading, resubmission planning, the
multi-round dependency-linked submission loop, single-job submission
command assembly, and job cancellation.

Python strings are modelled as `String`, Python `None`-able values as
`Option`, Python exceptions (including `expect` failures) as
`Except.error`, and Python integers as `Int` (or `Nat` where the source
guarantees non-negativity).  External collaborators (the command runner,
the resolved-expression evaluator, the `cime_config` store and
`get_submit_args`, which depends on a dynamic `eval`) are passed in as
explicit oracle parameters, mirroring the external interfaces of the
system.
-/

/-! ## Python string primitives -/

/-- Whitespace test used by Python `str.split()` / `str.strip()`. -/
def isWsChar (c : Char) : Bool := c = ' ' || c = '\t' || c = '\n' || c = '\r'

/-- Python `str.strip()` on a character list. -/
def stripChars (l : List Char) : List Char :=
  ((l.dropWhile isWsChar).reverse.dropWhile isWsChar).reverse

/-- Python `str.strip()`. -/
def pyStrip (s : String) : String := String.mk (stripChars s.toList)

/-- Python `str.split(sep)` for a single-character separator
(keeps empty fields, like Python). -/
def splitSep (sep : Char) : List Char → List (List Char)
  | [] => [[]]
  | c :: cs =>
    let r := splitSep sep cs
    if c = sep then [] :: r
    else
      match r with
      | [] => [[c]]
      | h :: t => (c :: h) :: t

/-- Helper for `pySplit`: split on whitespace runs, dropping empty fields. -/
def splitWsAux : List Char → List Char → List (List Char)
  | acc, [] => if acc.isEmpty then [] else [acc.reverse]
  | acc, c :: cs =>
    if isWsChar c then
      if acc.isEmpty then splitWsAux [] cs else acc.reverse :: splitWsAux [] cs
    else splitWsAux (c :: acc) cs

/-- Python `str.split()` (no argument): split on whitespace, dropping empties. -/
def pySplit (s : String) : List String := (splitWsAux [] s.toList).map String.mk

/-- Substring containment, Python `pat in s`. -/
def containsSub (pat : List Char) : List Char → Bool
  | [] => pat.isEmpty
  | c :: cs => List.isPrefixOf pat (c :: cs) || containsSub pat cs

/-- Fuelled core of `pyReplace`; fuel equal to the subject length suffices,
since every step consumes at least one subject character. -/
def replaceFuel (pat repl : List Char) : Nat → List Char → List Char
  | _, [] => []
  | 0, s => s
  | Nat.succ fuel, c :: cs =>
    if !pat.isEmpty && List.isPrefixOf pat (c :: cs) then
      repl ++ replaceFuel pat repl fuel (cs.drop (pat.length - 1))
    else c :: replaceFuel pat repl fuel cs

/-- Python `s.replace(pat, repl)`: every non-overlapping occurrence,
left to right. -/
def pyReplace (s pat repl : String) : String :=
  String.mk (replaceFuel pat.toList repl.toList s.toList.length s.toList)

/-- Value of a decimal digit character. -/
def digitVal (c : Char) : Option Nat :=
  if '0' ≤ c && c ≤ '9' then some (c.toNat - '0'.toNat) else none

/-- Accumulating decimal parser. -/
def parseNatAux : Nat → List Char → Option Nat
  | acc, [] => some acc
  | acc, c :: cs =>
    match digitVal c with
    | none => none
    | some d => parseNatAux (acc * 10 + d) cs

/-- Python `int(...)` on a field of a time string: digits only,
`none` models the `ValueError` on an empty or malformed field. -/
def parseNatChars : List Char → Option Nat
  | [] => none
  | c :: cs => parseNatAux 0 (c :: cs)

/-! ## Small generic helpers -/

/-- First-match association lookup (Python `d[k]` on an ordered dict,
`none` when the key is absent). -/
def lookupA {β : Type} : List (String × β) → String → Option β
  | [], _ => none
  | (k, v) :: t, key => if k = key then some v else lookupA t key

/-- Python `OrderedDict` assignment `d[k] = v`: update in place when the
key exists, else append at the end. -/
def updateAssoc {β : Type} : List (String × β) → String → β → List (String × β)
  | [], k, v => [(k, v)]
  | (k', v') :: t, k, v =>
    if k' = k then (k, v) :: t else (k', v') :: updateAssoc t k v

/-- Python truthiness of an optional string (`None` and `""` are falsy). -/
def optTruthy : Option String → Bool
  | none => false
  | some s => !s.isEmpty

/-- Whether an `Except` computation failed. -/
def isErr {ε α : Type} : Except ε α → Bool
  | .error _ => true
  | .ok _ => false

/-- Sequencing of fallible steps: a raised exception propagates past
the rest of the computation, like Python control flow. -/
def exBind {ε α β : Type} : Except ε α → (α → Except ε β) → Except ε β
  | .error e, _ => .error e
  | .ok a, f => f a

/-- Equality of fallible results is decidable when both components are. -/
instance exceptDecEq {ε α : Type} [DecidableEq ε] [DecidableEq α] :
    DecidableEq (Except ε α) := fun a b =>
  match a, b with
  | .error e1, .error e2 =>
    if h : e1 = e2 then isTrue (h ▸ rfl)
    else isFalse (fun hc => h (Except.error.inj hc))
  | .ok a1, .ok a2 =>
    if h : a1 = a2 then isTrue (h ▸ rfl)
    else isFalse (fun hc => h (Except.ok.inj hc))
  | .error _, .ok _ => isFalse (fun hc => Except.noConfusion hc)
  | .ok _, .error _ => isFalse (fun hc => Except.noConfusion hc)

/-! ## Walltime conversion -/

/-- Modelled from the spec: `convert_to_seconds` lives in `CIME.utils`,
outside the sources covered here.  The spec states that walltimes are
"converted to seconds" for comparison, with colon-separated
hour/minute/second fields (e.g. `"01:00:00"` is one hour).  Each
colon-separated field is parsed as a decimal number and the fields are
folded base 60, so `"H:M:S"` gives `H*3600 + M*60 + S`; a malformed
field is a fatal error. -/
def convert_to_seconds (timeStr : String) : Except String Nat :=
  let fields := (splitSep ':' timeStr.toList).map parseNatChars
  if fields.any (fun f => f.isNone) then
    Except.error "convert_to_seconds: could not parse time string"
  else
    Except.ok (fields.foldl (fun acc f => acc * 60 + f.getD 0) 0)

/-! ## Queue catalog model

A `QueueNode` is one `<queue>` element of the machine catalog: its text
(the queue name) and its XML attributes, exactly the ones read by
`get_queue_specs`, `get_default_queue` and `_get_all_queue_names`.
Integer-valued attributes are stored already parsed. -/

structure QueueNode where
  name : String
  defaultAttr : Option String
  nodemin : Option Int
  nodemax : Option Int
  jobmin : Option Int
  jobmax : Option Int
  jobname : Option String
  walltimemax : Option String
  strictAttr : Option String
deriving DecidableEq

/-- The tuple returned by `get_queue_specs`:
`(nodemin, nodemax, jobname, walltimemax, jobmin, jobmax, strict)`. -/
structure QueueSpecsT where
  nodemin : Option Int
  nodemax : Option Int
  jobname : Option String
  walltimemax : Option String
  jobmin : Option Int
  jobmax : Option Int
  strict : Bool
deriving DecidableEq

/-- `EnvBatch.get_queue_specs`: scan the catalog for the first queue node
whose text equals `queue`; reject (fatal `expect`) a node that sets both
`nodemin` and `jobmin`, or both `nodemax` and `jobmax`; return `none`
when no node matches. -/
def get_queue_specs : List QueueNode → String → Except String (Option QueueSpecsT)
  | [], _ => Except.ok none
  | q :: rest, queue =>
    if q.name = queue then
      if q.nodemin.isSome && q.jobmin.isSome then
        Except.error "Cannot specify both nodemin and jobmin for a queue"
      else if q.nodemax.isSome && q.jobmax.isSome then
        Except.error "Cannot specify both nodemax and jobmax for a queue"
      else
        Except.ok (some ⟨q.nodemin, q.nodemax, q.jobname, q.walltimemax,
                         q.jobmin, q.jobmax, q.strictAttr == some "true"⟩)
    else get_queue_specs rest queue

/-- `EnvBatch.get_default_queue`: the first queue flagged
`default="true"`, else the first queue declared; fatal when the catalog
is empty.  (The source walks the `batch_system`/`queues` elements; a
single flat catalog list models the single-`queues`-element case.) -/
def get_default_queue (queues : List QueueNode) : Except String QueueNode :=
  match queues.find? (fun q => q.defaultAttr == some "true") with
  | some q => Except.ok q
  | none =>
    match queues with
    | [] => Except.error "No queues found"
    | q :: _ => Except.ok q

/-- `EnvBatch._get_all_queue_names`: all queue names with the default
queue inserted at the front. -/
def get_all_queue_names (queues : List QueueNode) : Except String (List String) :=
  match get_default_queue queues with
  | .error e => .error e
  | .ok dq => .ok (dq.name :: queues.map QueueNode.name)

/-- The node/task bound test of `queue_meets_spec` (the four-way `or` on
lines 700-703 of the source): true when the request falls outside the
declared bounds. -/
def bounds_fail (s : QueueSpecsT) (num_nodes num_tasks : Int) : Bool :=
  (match s.nodemin with | some m => decide (num_nodes < m) | none => false) ||
  (match s.nodemax with | some m => decide (num_nodes > m) | none => false) ||
  (match s.jobmin with | some m => decide (num_tasks < m) | none => false) ||
  (match s.jobmax with | some m => decide (num_tasks > m) | none => false)

/-- `EnvBatch.queue_meets_spec`. -/
def queue_meets_spec (queues : List QueueNode) (queue : String)
    (num_nodes num_tasks : Int) (walltime : Option String) (job : Option String) :
    Except String Bool :=
  match get_queue_specs queues queue with
  | .error e => .error e
  | .ok none => .ok true
  | .ok (some s) =>
    match job, s.jobname with
    | some j, some jn => .ok (jn == j)
    | _, _ =>
      if bounds_fail s num_nodes num_tasks then .ok false
      else
        match walltime, s.walltimemax with
        | some w, some wm =>
          if s.strict then
            match convert_to_seconds w with
            | .error e => .error e
            | .ok ws =>
              match convert_to_seconds wm with
              | .error e => .error e
              | .ok wms => if ws > wms then .ok false else .ok true
          else .ok true
        | _, _ => .ok true

/-- The scan loop of `select_best_queue` over a list of queue names. -/
def first_meeting_queue (queues : List QueueNode) (num_nodes num_tasks : Int)
    (walltime : Option String) (job : Option String) :
    List String → Except String (Option String)
  | [] => .ok none
  | q :: rest =>
    match queue_meets_spec queues q num_nodes num_tasks walltime job with
    | .error e => .error e
    | .ok true => .ok (some q)
    | .ok false => first_meeting_queue queues num_nodes num_tasks walltime job rest

/-- `EnvBatch.select_best_queue`: first queue, in default-first order,
that meets the spec; `none` when no queue matches. -/
def select_best_queue (queues : List QueueNode) (num_nodes num_tasks : Int)
    (walltime : Option String) (job : Option String) :
    Except String (Option String) :=
  match get_all_queue_names queues with
  | .error e => .error e
  | .ok qnames => first_meeting_queue queues num_nodes num_tasks walltime job qnames

/-! ## Resubmission planning -/

/-- The resubmission-count computation of `submit_jobs` (lines 450-456):
returns the number of submission rounds and the new value of the
workflow `RESUBMIT` counter. -/
def plan_resubmit (resubmit_immediate : Bool) (resubmit : Int) : Nat × Int :=
  if resubmit_immediate then
    let n : Int := resubmit + 1
    (if n ≤ 0 then 1 else n.toNat, 0)
  else (1, resubmit)

/-! ## Submission configuration

`BatchConfig` holds the values `submit_jobs` / `_submit_single_job` read
from the batch XML (`get_value(..., subgroup=None)` lookups, the job
list, and the per-job `prereq` / `dependency` / `BATCH_COMMAND_FLAGS`
entries).  `CimeConfig` models the external `cime_config` store.
`CaseState` models the external case object: the resolved-expression
evaluator for prerequisites (`none` models an evaluation exception), the
`get_submit_args` result (an oracle: that function feeds values through
a dynamic `eval` over the external config store), the command runner
composed with job-id extraction (`run_cmd_no_fail` + `get_job_id`,
whose regex match lives outside this model; `error` models a fatal
failure), and the `RESUBMIT` counter. -/

structure BatchConfig where
  batch_system : Option String
  batchtype : Option String
  depend_string : Option String
  depend_allow_string : Option String
  depend_separator : Option String
  batch_mail_flag : Option String
  batch_mail_type_flag : Option String
  batch_mail_type : Option String
  batch_mail_default : Option String
  batch_submit : Option String
  batch_redirect : Option String
  batch_env : Option String
  jobs : List String
  prereq : String → Option String
  dependency : String → Option String
  batch_command_flags : String → Option String

structure CimeConfig where
  main_mail_user : Option String
  main_mail_type : Option String
  create_test_mail_type : Option String

structure CaseState where
  resolve_eval : String → Option Bool
  submit_args : String → String
  run_and_get_jobid : String → Except String String
  resubmit : Int

/-- The no-batch test of `_submit_single_job` (line 564):
`batch_system is None or batch_system == "none" or no_batch`. -/
def noBatchMode (batch_system : Option String) (no_batch : Bool) : Bool :=
  batch_system.isNone || batch_system == some "none" || no_batch

/-- Modelled from the spec: `get_batch_script_for_job` lives in
`CIME.utils`, outside the sources covered here.  The spec only calls it
"the target script path" of a job; it is modelled as a script file named
after the job.  No theorem below depends on its exact shape. -/
def get_batch_script_for_job (job : String) : String := "." ++ job

/-- `EnvBatch._get_supported_args`: the fixed per-job-type whitelist of
run arguments, in insertion order. -/
def get_supported_args (job : String) (no_batch : Bool) : List (String × String) :=
  (if job = "case.run" || job = "case.test"
   then [("skip_pnl", "--skip-preview-namelist")] else []) ++
  (if job = "case.run"
   then [("set_continue_run", "--completion-sets-continue-run")] else []) ++
  (if job = "case.st_archive" || job = "case.run" then
    (if job = "case.st_archive" && no_batch
     then [("resubmit", "--resubmit")]
     else [("submit_resubmits", "--resubmit")])
   else [])

/-- `EnvBatch._build_run_args`: keep the passed run arguments that are
truthy and supported, pairing each with its flag.  `run_args` is the
keyword-argument list in call order. -/
def build_run_args (job : String) (no_batch : Bool)
    (run_args : List (String × Bool)) : List (String × (Bool × String)) :=
  let supported := get_supported_args job no_batch
  run_args.filterMap (fun p =>
    match lookupA supported p.1 with
    | some flag => if p.2 then some (p.1, (p.2, flag)) else none
    | none => none)

/-- `EnvBatch._build_run_args_str`. -/
def build_run_args_str (cfg : BatchConfig) (job : String) (no_batch : Bool)
    (run_args : List (String × Bool)) : String :=
  let args := build_run_args job no_batch run_args
  let s := String.intercalate " " (args.map (fun p => p.2.2))
  if !(optTruthy cfg.batch_env) then s
  else (cfg.batch_env.getD "") ++ " ARGS_FOR_SCRIPT=\x27" ++ s ++ "\x27"

/-- `EnvBatch.get_batch_mail_type`: index the comma-separated
`batch_mail_type` list by the position of the requested type among
`never, all, begin, end, fail`; errors model the `AttributeError` on a
missing `batch_mail_type` and the `ValueError` on an unknown type. -/
def get_batch_mail_type (cfg : BatchConfig) (mail_type : String) :
    Except String (Option String) :=
  match cfg.batch_mail_type with
  | none => Except.error "batch_mail_type is not defined"
  | some raw =>
    let mail_types := (splitSep ',' raw.toList).map (fun l => pyStrip (String.mk l))
    match ["never", "all", "begin", "end", "fail"].findIdx? (fun x => x = mail_type) with
    | none => Except.error "unknown mail type"
    | some idx => Except.ok (mail_types.get? idx)

/-- The `depend_string` / `depend_allow_string` choice of
`_submit_single_job` (lines 581-588): with `allow_fail`, a missing
`depend_allow_string` falls back (with only a warning) to
`depend_string`. -/
def resolved_dep_string (cfg : BatchConfig) (allow_fail : Bool) : Option String :=
  if allow_fail then
    match cfg.depend_allow_string with
    | none => cfg.depend_string
    | some s => some s
  else cfg.depend_string

/-- The dependency-clause construction of `_submit_single_job`
(lines 581-599): resolve the dependency-string template (fatal when
absent), require a `depend_separator` (fatal when absent) and the
literal token `jobid` in the template (fatal when absent), then join
the ids with the separator and substitute them for `jobid`. -/
def dep_clause_check (cfg : BatchConfig) (allow_fail : Bool)
    (dep_jobs : List String) : Except String String :=
  match resolved_dep_string cfg allow_fail with
  | none => Except.error "depend_string is not defined for this batch system"
  | some ds =>
    match cfg.depend_separator with
    | none => Except.error "depend_separator string not defined"
    | some sep =>
      if !containsSub "jobid".toList ds.toList then
        Except.error "depend_string is missing jobid for prerequisite jobs"
      else
        let dep_ids_str := String.intercalate sep dep_jobs
        Except.ok (pyReplace ds "jobid" (pyStrip dep_ids_str))

/-- The dependency-clause block of `_submit_single_job` (lines 579-599):
the clause is built and appended only when the dependency list is
non-empty. -/
def dep_clause_step (cfg : BatchConfig) (allow_fail : Bool)
    (submitargs : String) (dep_jobs : List String) : Except String String :=
  if dep_jobs.isEmpty then Except.ok submitargs
  else
    match dep_clause_check cfg allow_fail dep_jobs with
    | .error e => .error e
    | .ok clause => Except.ok (submitargs ++ " " ++ clause)

/-- The mail-flag block of `_submit_single_job` (lines 614-637). -/
def mail_type_step (cfg : BatchConfig) (cime_cfg : CimeConfig) (job : String)
    (mail_type : Option (List String)) (submitargs : String) : Except String String :=
  let mail_type2 : Option (List String) :=
    match mail_type with
    | some l => some l
    | none =>
      let mts : Option String :=
        if job = "case.test" && cime_cfg.create_test_mail_type.isSome then
          cime_cfg.create_test_mail_type
        else if cime_cfg.main_mail_type.isSome then cime_cfg.main_mail_type
        else cfg.batch_mail_default
      match mts with
      | none => none
      | some s => if s.isEmpty then none
                  else some ((splitSep ',' s.toList).map String.mk)
  match mail_type2 with
  | some (mt0 :: mtRest) =>
    match cfg.batch_mail_type_flag with
    | none => Except.ok submitargs
    | some flag =>
      let collected : Except String (List String) :=
        (mt0 :: mtRest).foldl (fun acc t =>
          match acc with
          | .error e => .error e
          | .ok l =>
            match get_batch_mail_type cfg t with
            | .error e => .error e
            | .ok none => .error "cannot join a missing mail-type argument"
            | .ok (some a) => .ok (l ++ [a])) (Except.ok [])
      match collected with
      | .error e => .error e
      | .ok args =>
        if flag = "-m" then
          Except.ok (submitargs ++ " " ++ flag ++ " " ++ String.join args)
        else
          Except.ok (submitargs ++ " " ++ flag ++ " " ++
                     String.intercalate (" " ++ flag ++ " ") args)
  | _ => Except.ok submitargs

/-- The batch-system path of `_submit_single_job` (lines 574-659):
submit-argument assembly, the dependency clause, mail flags, and the
final submit command. -/
def submit_batch_path (cfg : BatchConfig) (cime_cfg : CimeConfig) (cs : CaseState)
    (job : String) (dep_jobs : List String) (allow_fail skip_pnl : Bool)
    (mail_user : Option String) (mail_type : Option (List String))
    (batch_args : Option String) (dry_run resubmit_immediate : Bool) :
    Except String (Option String) :=
    let submitargs0 := cs.submit_args job
    let submitargs1 :=
      match cfg.batch_command_flags job with
      | some ov => if ov.isEmpty then submitargs0 else ov
      | none => submitargs0
    match dep_clause_step cfg allow_fail submitargs1 dep_jobs with
    | .error e => .error e
    | .ok submitargs2 =>
      let submitargs3 :=
        match batch_args with
        | some ba => submitargs2 ++ " " ++ ba
        | none => submitargs2
      let mail_user2 :=
        match mail_user with
        | some u => some u
        | none => cime_cfg.main_mail_user
      let submitargs4 :=
        match mail_user2 with
        | some u =>
          match cfg.batch_mail_flag with
          | some f => submitargs3 ++ " " ++ f ++ " " ++ u
          | none => submitargs3
        | none => submitargs3
      match mail_type_step cfg cime_cfg job mail_type submitargs4 with
      | .error e => .error e
      | .ok submitargs5 =>
        match cfg.batch_submit with
        | none => Except.error "Unable to determine the correct command for batch submission."
        | some batchsubmit =>
          let run_args := build_run_args_str cfg job false
            [("skip_pnl", skip_pnl), ("set_continue_run", resubmit_immediate),
             ("submit_resubmits", !resubmit_immediate)]
          let sequence : List (Option String) :=
            if optTruthy cfg.batch_env then
              [some batchsubmit, some submitargs5, some run_args,
               cfg.batch_redirect, some (get_batch_script_for_job job)]
            else
              [some batchsubmit, some submitargs5, cfg.batch_redirect,
               some (get_batch_script_for_job job), some run_args]
          let submitcmd := String.intercalate " " ((sequence.filterMap id).map pyStrip)
          if dry_run then Except.ok (some submitcmd)
          else
            match cs.run_and_get_jobid submitcmd with
            | .error e => .error e
            | .ok jobid => Except.ok (some jobid)

/-- `EnvBatch._submit_single_job`.  Returns the Python return value:
`none` in no-batch mode (where the job entry point is invoked in
process, an external effect whose result the source discards), the
literal submit command in dry-run mode, and the job id parsed from the
submit output otherwise. -/
def submit_single_job (cfg : BatchConfig) (cime_cfg : CimeConfig) (cs : CaseState)
    (job : String) (dep_jobs : List String) (allow_fail no_batch skip_pnl : Bool)
    (mail_user : Option String) (mail_type : Option (List String))
    (batch_args : Option String) (dry_run resubmit_immediate : Bool) :
    Except String (Option String) :=
  if noBatchMode cfg.batch_system no_batch then Except.ok none
  else
    submit_batch_path cfg cime_cfg cs job dep_jobs allow_fail skip_pnl
      mail_user mail_type batch_args dry_run resubmit_immediate

/-! ## Submission orchestration (`submit_jobs`) -/

/-- The dependency-id computation of each `submit_jobs` loop iteration
(lines 462-473): the external prerequisite id (if any), then the
declared dependency names that are already recorded with a non-`None`
id, then the previous job id (if any). -/
def dep_jobs_for (user_prereq : Option String)
    (depid : List (String × Option String)) (prev_job : Option String)
    (dependency : Option String) : List String :=
  let deps := match dependency with | none => [] | some d => pySplit d
  (match user_prereq with | none => [] | some u => [u]) ++
  deps.filterMap (fun dep =>
    match lookupA depid dep with
    | some (some v) => some v
    | _ => none) ++
  (match prev_job with | none => [] | some p => [p])

/-- Loop state of `submit_jobs`: the ordered `depid` map, the collected
`jobcmds` list, a trace of the `dep_jobs` argument passed to each
`_submit_single_job` call (the dependency id set of each submission, in
submission order), and the current value of the Python variable
`batch_job_id` (`none` while it is still unassigned). -/
structure SubmitState where
  depid : List (String × Option String)
  jobcmds : List (String × Option String)
  trace : List (String × List String)
  last_id : Option (Option String)
deriving DecidableEq

/-- Return value of `submit_jobs`: the `jobcmds` list in dry-run mode,
else the `depid` map. -/
inductive SubmitRet where
  | cmds (l : List (String × Option String))
  | ids (l : List (String × Option String))
deriving DecidableEq

/-- Output of `submit_jobs` together with the submission trace and the
final value of the `RESUBMIT` counter. -/
structure SubmitOutput where
  ret : SubmitRet
  trace : List (String × List String)
  final_resubmit : Int
deriving DecidableEq

/-- The non-catalog arguments threaded through the `submit_jobs` loops. -/
structure SubmitArgsCtx where
  cfg : BatchConfig
  cime_cfg : CimeConfig
  cs : CaseState
  alljobs : List String
  user_prereq : Option String
  skip_pnl : Bool
  allow_fail : Bool
  no_batch : Bool
  mail_user : Option String
  mail_type : Option (List String)
  batch_args : Option String
  dry_run : Bool
  resubmit_immediate : Bool

/-- The Python variable `batch_job_id` after one submission (line 486):
the job's index as a string in dry-run mode, else the submission
result. -/
def submit_batch_job_id (ctx : SubmitArgsCtx) (job : String)
    (result : Option String) : Option String :=
  if ctx.dry_run then some (toString (ctx.alljobs.indexOf job)) else result

/-- One iteration's state update of the `submit_jobs` inner loop
(lines 486-488): record `batch_job_id` under the job name, append the
`(job, result)` pair to `jobcmds`, and trace the dependency id set that
was passed to the submission. -/
def submit_step (ctx : SubmitArgsCtx) (prev_job : Option String) (st : SubmitState)
    (job : String) (dependency : Option String) (result : Option String) :
    SubmitState :=
  { depid := updateAssoc st.depid job (submit_batch_job_id ctx job result),
    jobcmds := st.jobcmds ++ [(job, result)],
    trace := st.trace ++ [(job, dep_jobs_for ctx.user_prereq st.depid prev_job dependency)],
    last_id := some (submit_batch_job_id ctx job result) }

/-- The inner (per-job) loop of `submit_jobs` (lines 461-490).  Note
`prev_job` is fixed for the whole round: the source updates it only
after this loop finishes (line 491).  On Cobalt the round stops after
the first submission. -/
def run_jobs (ctx : SubmitArgsCtx) (prev_job : Option String) :
    List (String × Option String) → SubmitState → Except String SubmitState
  | [], st => Except.ok st
  | (job, dependency) :: rest, st =>
    exBind (submit_single_job ctx.cfg ctx.cime_cfg ctx.cs job
        (dep_jobs_for ctx.user_prereq st.depid prev_job dependency) ctx.allow_fail
        ctx.no_batch ctx.skip_pnl ctx.mail_user ctx.mail_type ctx.batch_args
        ctx.dry_run ctx.resubmit_immediate) (fun result =>
      if ctx.cfg.batchtype = some "cobalt" then
        Except.ok (submit_step ctx prev_job st job dependency result)
      else run_jobs ctx prev_job rest (submit_step ctx prev_job st job dependency result))

/-- The outer (per-round) loop of `submit_jobs` (lines 460-491): after
each round, `prev_job` becomes the round's final `batch_job_id`; reading
it while still unassigned (an empty job list) is the source's
`NameError`. -/
def run_rounds (ctx : SubmitArgsCtx) (jobs : List (String × Option String)) :
    Nat → Option String → SubmitState → Except String SubmitState
  | 0, _, st => Except.ok st
  | n + 1, prev_job, st =>
    exBind (run_jobs ctx prev_job jobs st) (fun st2 =>
      match st2.last_id with
      | none => Except.error "NameError: batch_job_id is not assigned"
      | some b => run_rounds ctx jobs n b st2)

/-- The eligibility scan of `submit_jobs` (lines 427-445): skip jobs
before the starting index; a job is eligible when it has no `prereq`
expression, is the requested starting job, or (in dry-run) its `prereq`
is the literal `$BUILD_COMPLETE`; otherwise the resolved expression is
evaluated, any evaluation failure being fatal.  On Cobalt the scan stops
after the first non-skipped job. -/
def eligible_jobs (cfg : BatchConfig) (cs : CaseState) (firstjob : Option String)
    (startindex : Nat) (dry_run : Bool) :
    List String → Nat → Except String (List (String × Option String))
  | [], _ => Except.ok []
  | job :: rest, idx =>
    if idx < startindex then eligible_jobs cfg cs firstjob startindex dry_run rest (idx + 1)
    else
      let p := cfg.prereq job
      let prereqOk : Except String Bool :=
        if p.isNone || firstjob == some job || (dry_run && p == some "$BUILD_COMPLETE") then
          Except.ok true
        else
          match cs.resolve_eval (p.getD "") with
          | none => Except.error ("Unable to evaluate prereq expression for job " ++ job)
          | some b => Except.ok b
      match prereqOk with
      | .error e => .error e
      | .ok b =>
        let here := if b then [(job, cfg.dependency job)] else []
        if cfg.batchtype = some "cobalt" then Except.ok here
        else
          match eligible_jobs cfg cs firstjob startindex dry_run rest (idx + 1) with
          | .error e => .error e
          | .ok l => Except.ok (here ++ l)

/-- The starting-index computation of `submit_jobs` (lines 420-425):
fatal when the requested starting job is unknown. -/
def submit_start_index (alljobs : List String) (jobArg : Option String) :
    Except String Nat :=
  match jobArg with
  | none => Except.ok 0
  | some j =>
    if alljobs.contains j then Except.ok (alljobs.indexOf j)
    else Except.error ("Do not know about batch job " ++ j)

/-- `EnvBatch.submit_jobs`. -/
def submit_jobs (cfg : BatchConfig) (cime_cfg : CimeConfig) (cs : CaseState)
    (no_batch : Bool) (jobArg : Option String) (user_prereq : Option String)
    (skip_pnl allow_fail resubmit_immediate : Bool) (mail_user : Option String)
    (mail_type : Option (List String)) (batch_args : Option String)
    (dry_run : Bool) : Except String SubmitOutput :=
  exBind (submit_start_index cfg.jobs jobArg) (fun startindex =>
    exBind (eligible_jobs cfg cs jobArg startindex dry_run cfg.jobs 0) (fun jobs =>
      exBind (run_rounds
          ⟨cfg, cime_cfg, cs, cfg.jobs, user_prereq, skip_pnl, allow_fail, no_batch,
           mail_user, mail_type, batch_args, dry_run, resubmit_immediate⟩
          jobs (plan_resubmit resubmit_immediate cs.resubmit).1 none
          ⟨[], [], [], none⟩) (fun st =>
        Except.ok ⟨if dry_run then SubmitRet.cmds st.jobcmds else SubmitRet.ids st.depid,
                   st.trace, (plan_resubmit resubmit_immediate cs.resubmit).2⟩)))

/-! ## Job cancellation -/

/-- `EnvBatch.cancel_job`: `runner` is the external status-returning
command runner (`run_cmd`), giving `(exitStatus, stdout, stderr)`.  The
source returns `False` when `batch_cancel` is not configured, `True`
when the cancel command exits 0, and falls off the end of the function
(Python `None`, modelled `none`) when the command fails. -/
def cancel_job (batch_cancel : Option String)
    (runner : String → Int × String × String) (jobid : String) : Option Bool :=
  match batch_cancel with
  | none => some false
  | some c =>
    let r := runner (c ++ " " ++ jobid)
    if r.1 ≠ 0 then none else some true

/-! ## Concrete scenarios used in the theorems below -/

/-- Shared concrete external collaborators for concrete runs: no
prerequisite expressions resolve, submit arguments are empty, and the
external command runner is unavailable. -/
def demoCase : CaseState :=
  ⟨fun _ => none, fun _ => "", fun _ => Except.error "external runner unavailable", 0⟩

/-- Shared empty `cime_config` store for concrete runs. -/
def demoCime : CimeConfig := ⟨none, none, none⟩

/-- A command runner whose cancel command fails with exit status 1. -/
def failing_runner : String → Int × String × String := fun _ => (1, "", "cancel failed")

/-- A PBS-like configuration with `depend_allow_string` missing but
`depend_string` present. -/
def fallbackCfg : BatchConfig :=
  { batch_system := some "pbs", batchtype := some "pbs",
    depend_string := some "-W depend=afterok:jobid",
    depend_allow_string := none, depend_separator := some ":",
    batch_mail_flag := none, batch_mail_type_flag := none,
    batch_mail_type := none, batch_mail_default := none,
    batch_submit := some "qsub", batch_redirect := none, batch_env := none,
    jobs := ["case.run"],
    prereq := fun _ => none, dependency := fun _ => none,
    batch_command_flags := fun _ => none }

/-- A configuration with neither dependency string defined. -/
def noDepStringCfg : BatchConfig :=
  { batch_system := some "pbs", batchtype := some "pbs",
    depend_string := none, depend_allow_string := none,
    depend_separator := some ":",
    batch_mail_flag := none, batch_mail_type_flag := none,
    batch_mail_type := none, batch_mail_default := none,
    batch_submit := some "qsub", batch_redirect := none, batch_env := none,
    jobs := ["case.run"],
    prereq := fun _ => none, dependency := fun _ => none,
    batch_command_flags := fun _ => none }

/-- A PBS-like configuration with jobs `A`, `B`, `C`, where `B` declares
a dependency on `A`. -/
def chainCfg : BatchConfig :=
  { batch_system := some "pbs", batchtype := some "pbs",
    depend_string := some "-W depend=afterok:jobid",
    depend_allow_string := none, depend_separator := some ":",
    batch_mail_flag := none, batch_mail_type_flag := none,
    batch_mail_type := none, batch_mail_default := none,
    batch_submit := some "qsub", batch_redirect := none, batch_env := none,
    jobs := ["A", "B", "C"],
    prereq := fun _ => none,
    dependency := fun j => if j = "B" then some "A" else none,
    batch_command_flags := fun _ => none }

/-- A single dry run (one round, `N = 1`) of `submit_jobs` over the
`A`, `B`, `C` workflow; dry-run ids are the job indices `"0"`, `"1"`,
`"2"`. -/
def chain_run : Except String SubmitOutput :=
  submit_jobs chainCfg demoCime demoCase false none none false false false
    none none none true

/-- The per-submission dependency id sets of `chain_run`, in submission
order. -/
def chain_trace : List (String × List String) :=
  match chain_run with
  | .ok o => o.trace
  | .error _ => []

/-- Invariant of the no-batch non-dry-run submission loop: every
recorded id is `none`, every traced dependency set is empty, and the
current `batch_job_id` is unassigned or `none`. -/
def NoBatchInv (st : SubmitState) : Prop :=
  (∀ p ∈ st.depid, p.2 = none) ∧
  (∀ tr ∈ st.trace, tr.2 = ([] : List String)) ∧
  (st.last_id = none ∨ st.last_id = some none)

/-- A no-batch configuration with a single `case.run` job. -/
def noBatchCfg : BatchConfig :=
  { batch_system := some "none", batchtype := some "none",
    depend_string := none, depend_allow_string := none, depend_separator := none,
    batch_mail_flag := none, batch_mail_type_flag := none,
    batch_mail_type := none, batch_mail_default := none,
    batch_submit := none, batch_redirect := none, batch_env := none,
    jobs := ["case.run"],
    prereq := fun _ => none, dependency := fun _ => none,
    batch_command_flags := fun _ => none }

/-- The output of the concrete no-batch real run. -/
def noBatchOut : SubmitOutput :=
  ⟨SubmitRet.ids [("case.run", none)], [("case.run", [])], 0⟩

/-! ## Theorems -/

/-- A queue absent from the catalog yields no specs. -/
theorem get_queue_specs_not_found (queues : List QueueNode) (queue : String)
    (h : ∀ q ∈ queues, q.name ≠ queue) :
    get_queue_specs queues queue = Except.ok none := by
  induction queues with
  | nil => rfl
  | cons q rest ih =>
    unfold get_queue_specs
    rw [if_neg (h q (List.mem_cons_self q rest))]
    exact ih (fun p hp => h p (List.mem_cons_of_mem q hp))

/-- Claim C4: for every queue name with no matching spec in the catalog,
`queue_meets_spec` returns true for all node counts, task counts,
walltimes and job names. -/
theorem c4_unknown_queue_permissive (queues : List QueueNode) (queue : String)
    (num_nodes num_tasks : Int) (walltime job : Option String)
    (h : ∀ q ∈ queues, q.name ≠ queue) :
    queue_meets_spec queues queue num_nodes num_tasks walltime job = Except.ok true := by
  unfold queue_meets_spec
  rw [get_queue_specs_not_found queues queue h]

/-- Claim C4 witness: a catalog knowing only `known` accepts the unknown
queue `mystery` at a concrete oversized request. -/
theorem c4_unknown_queue_permissive_witness :
    queue_meets_spec [⟨"known", none, none, some 1, none, some 1, none, some "00:01:00", some "true"⟩]
      "mystery" 999 999 (some "99:00:00") (some "case.run") = Except.ok true :=
  c4_unknown_queue_permissive _ _ _ _ _ _ (by decide)

/-- Claim C5: when a job name is supplied and the matched spec declares
a `jobname`, `queue_meets_spec` is exactly the job-name comparison,
whatever the bounds and walltime say. -/
theorem c5_jobname_short_circuit (queues : List QueueNode) (queue : String)
    (s : QueueSpecsT) (jn j : String) (num_nodes num_tasks : Int)
    (walltime : Option String)
    (h1 : get_queue_specs queues queue = Except.ok (some s))
    (h2 : s.jobname = some jn) :
    queue_meets_spec queues queue num_nodes num_tasks walltime (some j) =
      Except.ok (jn == j) := by
  simp only [queue_meets_spec, h1, h2]

/-- Claim C5 witness: a one-node-max queue with `jobname="bigjob"`
rejects a non-matching job name at 999 nodes/tasks (where bounds alone
would also reject) and accepts the matching one (where bounds alone
would reject). -/
theorem c5_jobname_short_circuit_witness :
    queue_meets_spec [⟨"share", none, none, some 1, none, none, some "bigjob", none, none⟩]
      "share" 999 999 none (some "other") = Except.ok false ∧
    queue_meets_spec [⟨"share", none, none, some 1, none, none, some "bigjob", none, none⟩]
      "share" 999 999 none (some "bigjob") = Except.ok true :=
  ⟨c5_jobname_short_circuit _ "share" ⟨none, some 1, some "bigjob", none, none, none, false⟩
     "bigjob" "other" 999 999 none (by rfl) (by rfl),
   c5_jobname_short_circuit _ "share" ⟨none, some 1, some "bigjob", none, none, none, false⟩
     "bigjob" "bigjob" 999 999 none (by rfl) (by rfl)⟩

/-- Claim C7: a queue node that sets both `nodemin` and `jobmin`, or
both `nodemax` and `jobmax`, is rejected with a fatal error when its
specs are loaded — it can never yield a usable queue specification. -/
theorem c7_exclusive_bounds_fatal (queues : List QueueNode) (queue : String)
    (node : QueueNode)
    (hfind : queues.find? (fun q => q.name == queue) = some node)
    (hboth : (node.nodemin.isSome ∧ node.jobmin.isSome) ∨
             (node.nodemax.isSome ∧ node.jobmax.isSome)) :
    isErr (get_queue_specs queues queue) = true := by
  induction queues with
  | nil => simp [List.find?] at hfind
  | cons q rest ih =>
    by_cases hq : q.name = queue
    · have hfq : (q.name == queue) = true := by simp [hq]
      simp only [List.find?, hfq] at hfind
      have hnode : q = node := Option.some.inj hfind
      subst hnode
      unfold get_queue_specs
      rw [if_pos hq]
      rcases hboth with ⟨hm, hj⟩ | ⟨hM, hJ⟩
      · rw [if_pos (by simp [hm, hj])]
        rfl
      · by_cases hfst : q.nodemin.isSome && q.jobmin.isSome
        · rw [if_pos hfst]; rfl
        · rw [if_neg hfst, if_pos (by simp [hM, hJ])]; rfl
    · have hfq : (q.name == queue) = false := by simp [hq]
      simp only [List.find?, hfq] at hfind
      unfold get_queue_specs
      rw [if_neg hq]
      exact ih hfind
/-- Claim C7 witness: a queue setting both `nodemin` and `jobmin` makes
spec loading fatal. -/
theorem c7_exclusive_bounds_fatal_witness :
    isErr (get_queue_specs [⟨"bad", none, some 1, none, some 2, none, none, none, none⟩] "bad")
      = true :=
  c7_exclusive_bounds_fatal _ "bad" ⟨"bad", none, some 1, none, some 2, none, none, none, none⟩
    (by decide) (Or.inl (by decide))

/-- Claim C8: with resubmit-immediate the number of submission rounds is
the `RESUBMIT` counter plus one (at least 1) and the counter is reset to
0; without it there is one round and the counter is untouched. -/
theorem c8_resubmit_rounds (resubmit_immediate : Bool) (resubmit : Int) :
    plan_resubmit resubmit_immediate resubmit =
      (if resubmit_immediate then ((max (resubmit + 1) 1).toNat, 0) else (1, resubmit)) := by
  unfold plan_resubmit
  cases resubmit_immediate with
  | false => rfl
  | true =>
    simp only [if_true]
    by_cases h : resubmit + 1 ≤ 0
    · rw [if_pos h, max_eq_right (by omega : resubmit + 1 ≤ (1 : Int))]
      rfl
    · rw [if_neg h, max_eq_left (by omega : (1 : Int) ≤ resubmit + 1)]

/-- `"01:00:01"` is 3601 seconds. -/
theorem conv_one_hour_one_sec : convert_to_seconds "01:00:01" = Except.ok 3601 := by rfl

/-- `"01:00:00"` is 3600 seconds. -/
theorem conv_one_hour : convert_to_seconds "01:00:00" = Except.ok 3600 := by rfl

/-- Claim C9: against a matched spec with `walltimemax="01:00:00"` whose
bounds admit the request (and with no job-name short circuit), a strict
spec rejects a requested walltime of `"01:00:01"` and accepts
`"01:00:00"`, comparing in seconds; a non-strict spec accepts every
requested walltime. -/
theorem c9_strict_walltime (queues : List QueueNode) (queue : String)
    (s : QueueSpecsT) (num_nodes num_tasks : Int)
    (h1 : get_queue_specs queues queue = Except.ok (some s))
    (h2 : s.walltimemax = some "01:00:00")
    (h3 : bounds_fail s num_nodes num_tasks = false) :
    (s.strict = true →
      queue_meets_spec queues queue num_nodes num_tasks (some "01:00:01") none =
        Except.ok false ∧
      queue_meets_spec queues queue num_nodes num_tasks (some "01:00:00") none =
        Except.ok true) ∧
    (s.strict = false → ∀ w : String,
      queue_meets_spec queues queue num_nodes num_tasks (some w) none =
        Except.ok true) := by
  constructor
  · intro hs
    constructor
    · simp only [queue_meets_spec, h1, h2, h3, hs, conv_one_hour_one_sec, conv_one_hour]
      norm_num
    · simp only [queue_meets_spec, h1, h2, h3, hs, conv_one_hour]
      norm_num
  · intro hs w
    simp only [queue_meets_spec, h1, h2, h3, hs]
    norm_num

/-- Claim C9 witness: a concrete strict queue with
`walltimemax="01:00:00"` rejects `"01:00:01"` and accepts `"01:00:00"`. -/
theorem c9_strict_walltime_witness :
    queue_meets_spec [⟨"strictq", none, none, none, none, none, none, some "01:00:00", some "true"⟩]
      "strictq" 1 1 (some "01:00:01") none = Except.ok false ∧
    queue_meets_spec [⟨"strictq", none, none, none, none, none, none, some "01:00:00", some "true"⟩]
      "strictq" 1 1 (some "01:00:00") none = Except.ok true :=
  (c9_strict_walltime _ "strictq" ⟨none, none, none, some "01:00:00", none, none, true⟩
    1 1 (by rfl) (by rfl) (by rfl)).1 (by rfl)

/-- A list of queue names none of which meets the spec scans to `none`. -/
theorem first_meeting_queue_none (queues : List QueueNode)
    (num_nodes num_tasks : Int) (walltime job : Option String) (l : List String)
    (h : ∀ qn ∈ l, queue_meets_spec queues qn num_nodes num_tasks walltime job =
          Except.ok false) :
    first_meeting_queue queues num_nodes num_tasks walltime job l = Except.ok none := by
  induction l with
  | nil => rfl
  | cons qn rest ih =>
    unfold first_meeting_queue
    rw [h qn (List.mem_cons_self qn rest)]
    exact ih (fun p hp => h p (List.mem_cons_of_mem qn hp))

/-- The scan returns the queue name that follows an all-failing prefix
and meets the spec: the first match of the scanned list. -/
theorem first_meeting_queue_first_match (queues : List QueueNode)
    (num_nodes num_tasks : Int) (walltime job : Option String) :
    ∀ (l1 l2 : List String) (qname : String),
      (∀ q ∈ l1, queue_meets_spec queues q num_nodes num_tasks walltime job =
        Except.ok false) →
      queue_meets_spec queues qname num_nodes num_tasks walltime job = Except.ok true →
      first_meeting_queue queues num_nodes num_tasks walltime job (l1 ++ qname :: l2) =
        Except.ok (some qname) := by
  intro l1
  induction l1 with
  | nil =>
    intro l2 qname _ hq
    rw [List.nil_append]
    unfold first_meeting_queue
    rw [hq]
  | cons h1 t1 ih =>
    intro l2 qname hpre hq
    rw [List.cons_append]
    unfold first_meeting_queue
    rw [hpre h1 (List.mem_cons_self h1 t1)]
    exact ih l2 qname (fun q hq2 => hpre q (List.mem_cons_of_mem h1 hq2)) hq

/-- Claim C6: `select_best_queue` scans names in default-first order and
returns the first queue that meets the spec: whenever an all-failing
prefix of the scanned list is followed by a meeting queue, that queue's
name is returned; in particular, whenever the default queue itself
meets the spec the default queue's name is returned, regardless of
later matching queues; and when no queue in the scanned list meets the
spec the result is `none`. -/
theorem c6_default_first (queues : List QueueNode) (dq : QueueNode)
    (num_nodes num_tasks : Int) (walltime job : Option String)
    (hdq : get_default_queue queues = Except.ok dq) :
    (∀ (l1 l2 : List String) (qname : String),
      dq.name :: queues.map QueueNode.name = l1 ++ qname :: l2 →
      (∀ q ∈ l1, queue_meets_spec queues q num_nodes num_tasks walltime job =
        Except.ok false) →
      queue_meets_spec queues qname num_nodes num_tasks walltime job = Except.ok true →
      select_best_queue queues num_nodes num_tasks walltime job =
        Except.ok (some qname)) ∧
    (queue_meets_spec queues dq.name num_nodes num_tasks walltime job = Except.ok true →
      select_best_queue queues num_nodes num_tasks walltime job = Except.ok (some dq.name)) ∧
    ((∀ qn ∈ dq.name :: queues.map QueueNode.name,
        queue_meets_spec queues qn num_nodes num_tasks walltime job = Except.ok false) →
      select_best_queue queues num_nodes num_tasks walltime job = Except.ok none) := by
  have hnames : get_all_queue_names queues =
      Except.ok (dq.name :: queues.map QueueNode.name) := by
    unfold get_all_queue_names
    rw [hdq]
  refine ⟨?_, ?_, ?_⟩
  · intro l1 l2 qname hsplit hpre hq
    unfold select_best_queue
    rw [hnames, hsplit]
    exact first_meeting_queue_first_match queues num_nodes num_tasks walltime job
      l1 l2 qname hpre hq
  · intro hm
    unfold select_best_queue
    rw [hnames]
    unfold first_meeting_queue
    rw [hm]
  · intro hall
    unfold select_best_queue
    rw [hnames]
    exact first_meeting_queue_none _ _ _ _ _ _ hall

/-- Claim C6 witness: in a catalog whose default queue `small` caps
nodes at 1, a 5-node request fails the default (scanned first, twice)
and the first later queue that meets the spec, `big`, is selected. -/
theorem c6_default_first_witness :
    select_best_queue
      [⟨"small", some "true", none, some 1, none, none, none, none, none⟩,
       ⟨"big", none, none, none, none, none, none, none, none⟩]
      5 1 none none = Except.ok (some "big") :=
  (c6_default_first _ ⟨"small", some "true", none, some 1, none, none, none, none, none⟩
    5 1 none none (by rfl)).1 ["small", "small"] [] "big" (by rfl) (by decide) (by decide)

/-- Claim C3 counterexample: when the cancel command exits nonzero,
`cancel_job` returns neither `True` nor `False` — it falls off the end
of the function (Python `None`). -/
theorem c3_cancel_counterexample :
    ¬ (cancel_job (some "qdel") failing_runner "42" = some true ∨
       cancel_job (some "qdel") failing_runner "42" = some false) := by
  decide

/-- Claim C3 (amended): `cancel_job` returns `False` when cancellation
is unsupported, `True` when the cancel command exits 0, and no boolean
at all (Python `None`) when the cancel command exits nonzero. -/
theorem c3_cancel_outcomes (batch_cancel : Option String)
    (runner : String → Int × String × String) (jobid c : String) :
    (batch_cancel = none → cancel_job batch_cancel runner jobid = some false) ∧
    ((runner (c ++ " " ++ jobid)).1 = 0 →
      cancel_job (some c) runner jobid = some true) ∧
    ((runner (c ++ " " ++ jobid)).1 ≠ 0 →
      cancel_job (some c) runner jobid = none) := by
  refine ⟨fun h => ?_, fun h => ?_, fun h => ?_⟩
  · subst h; rfl
  · unfold cancel_job; simp [h]
  · unfold cancel_job; simp [h]

/-- Claim C3 witness: unsupported cancellation returns `False`. -/
theorem c3_cancel_outcomes_witness :
    cancel_job none failing_runner "7" = some false :=
  (c3_cancel_outcomes none failing_runner "7" "x").1 rfl

/-- Outside no-batch mode, `_submit_single_job` is its batch path. -/
theorem ssj_batch_of_not_nobatch (cfg : BatchConfig) (cime_cfg : CimeConfig)
    (cs : CaseState) (job : String) (dep_jobs : List String)
    (allow_fail no_batch skip_pnl : Bool) (mail_user : Option String)
    (mail_type : Option (List String)) (batch_args : Option String)
    (dry_run resubmit_immediate : Bool)
    (hnb : noBatchMode cfg.batch_system no_batch = false) :
    submit_single_job cfg cime_cfg cs job dep_jobs allow_fail no_batch skip_pnl
        mail_user mail_type batch_args dry_run resubmit_immediate =
      submit_batch_path cfg cime_cfg cs job dep_jobs allow_fail skip_pnl
        mail_user mail_type batch_args dry_run resubmit_immediate := by
  unfold submit_single_job
  rw [hnb]
  rfl

/-- A failing dependency-clause check fails the dependency-clause step
for every submit-argument string, as soon as dependencies exist. -/
theorem dep_step_err (cfg : BatchConfig) (allow_fail : Bool)
    (dep_jobs : List String) (e : String) (hne : dep_jobs ≠ [])
    (hchk : dep_clause_check cfg allow_fail dep_jobs = Except.error e) :
    ∀ s : String, dep_clause_step cfg allow_fail s dep_jobs = Except.error e := by
  intro s
  have hF : dep_jobs.isEmpty = false := by
    cases dep_jobs with
    | nil => exact absurd rfl hne
    | cons a t => rfl
  unfold dep_clause_step
  rw [hF, hchk]
  rfl

/-- A failing dependency-clause check is fatal for the whole batch path. -/
theorem batch_path_err_of_dep_err (cfg : BatchConfig) (cime_cfg : CimeConfig)
    (cs : CaseState) (job : String) (dep_jobs : List String)
    (allow_fail skip_pnl : Bool) (mail_user : Option String)
    (mail_type : Option (List String)) (batch_args : Option String)
    (dry_run resubmit_immediate : Bool) (e : String) (hne : dep_jobs ≠ [])
    (hchk : dep_clause_check cfg allow_fail dep_jobs = Except.error e) :
    isErr (submit_batch_path cfg cime_cfg cs job dep_jobs allow_fail skip_pnl
        mail_user mail_type batch_args dry_run resubmit_immediate) = true := by
  unfold submit_batch_path
  simp only [dep_step_err cfg allow_fail dep_jobs e hne hchk]
  rfl

/-- A missing resolved dependency string fails the clause check. -/
theorem dep_check_missing_string (cfg : BatchConfig) (allow_fail : Bool)
    (dep_jobs : List String)
    (h : resolved_dep_string cfg allow_fail = none) :
    dep_clause_check cfg allow_fail dep_jobs =
      Except.error "depend_string is not defined for this batch system" := by
  simp only [dep_clause_check, h]

/-- A missing dependency separator fails the clause check. -/
theorem dep_check_missing_sep (cfg : BatchConfig) (allow_fail : Bool)
    (dep_jobs : List String) (ds : String)
    (hds : resolved_dep_string cfg allow_fail = some ds)
    (hsep : cfg.depend_separator = none) :
    dep_clause_check cfg allow_fail dep_jobs =
      Except.error "depend_separator string not defined" := by
  simp only [dep_clause_check, hds, hsep]

/-- A template without the `jobid` token fails the clause check. -/
theorem dep_check_missing_jobid (cfg : BatchConfig) (allow_fail : Bool)
    (dep_jobs : List String) (ds sep : String)
    (hds : resolved_dep_string cfg allow_fail = some ds)
    (hsep : cfg.depend_separator = some sep)
    (hjob : containsSub "jobid".toList ds.toList = false) :
    dep_clause_check cfg allow_fail dep_jobs =
      Except.error "depend_string is missing jobid for prerequisite jobs" := by
  simp only [dep_clause_check, hds, hsep, hjob, Bool.not_false, if_true]

/-- Claim C2 (amended): with a non-empty dependency list and allow-fail
requested, a missing `depend_allow_string` falls back (warning only) to
`depend_string`; `_submit_single_job` is fatal only when the resolved
dependency string is missing altogether, when `depend_separator` is
missing, or when the template lacks the literal token `jobid`. -/
theorem c2_dep_string_fallback (cfg : BatchConfig) (cime_cfg : CimeConfig)
    (cs : CaseState) (job : String) (dep_jobs : List String)
    (allow_fail no_batch skip_pnl : Bool) (mail_user : Option String)
    (mail_type : Option (List String)) (batch_args : Option String)
    (dry_run resubmit_immediate : Bool)
    (hne : dep_jobs ≠ [])
    (hnb : noBatchMode cfg.batch_system no_batch = false) :
    (allow_fail = true → cfg.depend_allow_string = none →
      resolved_dep_string cfg allow_fail = cfg.depend_string) ∧
    (resolved_dep_string cfg allow_fail = none →
      isErr (submit_single_job cfg cime_cfg cs job dep_jobs allow_fail no_batch
        skip_pnl mail_user mail_type batch_args dry_run resubmit_immediate) = true) ∧
    (∀ ds, resolved_dep_string cfg allow_fail = some ds →
      cfg.depend_separator = none →
      isErr (submit_single_job cfg cime_cfg cs job dep_jobs allow_fail no_batch
        skip_pnl mail_user mail_type batch_args dry_run resubmit_immediate) = true) ∧
    (∀ ds sep, resolved_dep_string cfg allow_fail = some ds →
      cfg.depend_separator = some sep →
      containsSub "jobid".toList ds.toList = false →
      isErr (submit_single_job cfg cime_cfg cs job dep_jobs allow_fail no_batch
        skip_pnl mail_user mail_type batch_args dry_run resubmit_immediate) = true) := by
  have hbatch := ssj_batch_of_not_nobatch cfg cime_cfg cs job dep_jobs allow_fail
    no_batch skip_pnl mail_user mail_type batch_args dry_run resubmit_immediate hnb
  refine ⟨fun ha hn => ?_, fun h => ?_, fun ds hds hsep => ?_, fun ds sep hds hsep hjob => ?_⟩
  · simp [resolved_dep_string, ha, hn]
  · rw [hbatch]
    exact batch_path_err_of_dep_err _ _ _ _ _ _ _ _ _ _ _ _ _ hne
      (dep_check_missing_string cfg allow_fail dep_jobs h)
  · rw [hbatch]
    exact batch_path_err_of_dep_err _ _ _ _ _ _ _ _ _ _ _ _ _ hne
      (dep_check_missing_sep cfg allow_fail dep_jobs ds hds hsep)
  · rw [hbatch]
    exact batch_path_err_of_dep_err _ _ _ _ _ _ _ _ _ _ _ _ _ hne
      (dep_check_missing_jobid cfg allow_fail dep_jobs ds sep hds hsep hjob)

/-- Claim C2 counterexample: with dependencies present and allow-fail
requested, a missing `depend_allow_string` is NOT fatal —
`_submit_single_job` succeeds by falling back to `depend_string`. -/
theorem c2_dep_string_fallback_counterexample :
    isErr (submit_single_job fallbackCfg demoCime demoCase "case.run" ["11"]
      true false false none none none true false) = false := by rfl

/-- Claim C2 witness: when both dependency strings are missing and
dependencies exist, `_submit_single_job` is fatal. -/
theorem c2_dep_string_fallback_witness :
    isErr (submit_single_job noDepStringCfg demoCime demoCase "case.run" ["11"]
      true false false none none none true false) = true :=
  (c2_dep_string_fallback noDepStringCfg demoCime demoCase "case.run" ["11"]
    true false false none none none true false (by decide) (by rfl)).2.1 (by rfl)

/-- Claim C1 counterexample: in the single-round `A`, `B`, `C` run,
`B`'s dependency id set is `["0"]` (`A`'s id), but `C`'s dependency id
set is empty — it does not contain `B`'s id `"1"`, contradicting the
claimed "previous job in submission order" chaining within a round. -/
theorem c1_chain_counterexample :
    lookupA chain_trace "C" = some [] ∧ lookupA chain_trace "B" = some ["0"] := by
  decide

/-- Claim C1 (amended): in a single round over `A`, `B`, `C` with `B`
declaring a dependency on `A`, submission order is `A`, `B`, `C`; `B`'s
dependency id set contains exactly `A`'s id; and `C`'s dependency id set
is empty — the "previous job" id is attached only to jobs of later
rounds (the source updates `prev_job` once per round), so within one
round `C` waits on neither `B` nor `A` unless declared explicitly. -/
theorem c1_chain_amended :
    chain_trace = [("A", []), ("B", ["0"]), ("C", [])] := by
  decide

/-- In a map whose recorded ids are all `none`, any lookup that finds a
value finds `none`. -/
theorem lookupA_all_none {l : List (String × Option String)}
    (h : ∀ p ∈ l, p.2 = none) (k : String) (v : Option String)
    (hl : lookupA l k = some v) : v = none := by
  induction l with
  | nil => simp [lookupA] at hl
  | cons p t ih =>
    obtain ⟨k', v'⟩ := p
    unfold lookupA at hl
    by_cases hk : k' = k
    · rw [if_pos hk] at hl
      have := h (k', v') (List.mem_cons_self _ _)
      simp only [Option.some.injEq] at hl
      rw [← hl]
      exact this
    · rw [if_neg hk] at hl
      exact ih (fun q hq => h q (List.mem_cons_of_mem _ hq)) hl

/-- Recording a `none` id keeps all recorded ids `none`. -/
theorem updateAssoc_all_none {l : List (String × Option String)}
    (h : ∀ p ∈ l, p.2 = none) (k : String) :
    ∀ p ∈ updateAssoc l k (none : Option String), p.2 = none := by
  induction l with
  | nil =>
    intro p hp
    simp only [updateAssoc, List.mem_singleton] at hp
    rw [hp]
  | cons q t ih =>
    obtain ⟨k', v'⟩ := q
    intro p hp
    unfold updateAssoc at hp
    by_cases hk : k' = k
    · rw [if_pos hk] at hp
      rcases List.mem_cons.1 hp with hh | ht
      · rw [hh]
      · exact h p (List.mem_cons_of_mem _ ht)
    · rw [if_neg hk] at hp
      rcases List.mem_cons.1 hp with hh | ht
      · rw [hh]
        exact h (k', v') (List.mem_cons_self _ _)
      · exact ih (fun r hr => h r (List.mem_cons_of_mem _ hr)) p ht

/-- With no external prerequisite, no previous job, and only `none`
recorded ids, the computed dependency id set is empty. -/
theorem dep_jobs_for_empty {depid : List (String × Option String)}
    (h : ∀ p ∈ depid, p.2 = none) (dependency : Option String) :
    dep_jobs_for none depid none dependency = [] := by
  unfold dep_jobs_for
  simp only [List.nil_append, List.append_nil]
  rw [List.filterMap_eq_nil_iff]
  intro a _
  cases hx : lookupA depid a with
  | none => rfl
  | some v =>
    have := lookupA_all_none h a v hx
    subst this
    rfl

/-- In no-batch mode `_submit_single_job` returns no identifier, for
every job and dependency list. -/
theorem ssj_no_batch (cfg : BatchConfig) (cime_cfg : CimeConfig) (cs : CaseState)
    (job : String) (dep_jobs : List String) (allow_fail no_batch skip_pnl : Bool)
    (mail_user : Option String) (mail_type : Option (List String))
    (batch_args : Option String) (dry_run resubmit_immediate : Bool)
    (hnb : noBatchMode cfg.batch_system no_batch = true) :
    submit_single_job cfg cime_cfg cs job dep_jobs allow_fail no_batch skip_pnl
      mail_user mail_type batch_args dry_run resubmit_immediate = Except.ok none := by
  unfold submit_single_job
  rw [hnb]
  rfl

/-- `exBind` on a success applies the continuation. -/
theorem exBind_ok {ε α β : Type} (a : α) (f : α → Except ε β) :
    exBind (Except.ok a) f = f a := rfl

/-- `exBind` on a failure propagates it. -/
theorem exBind_error {ε α β : Type} (e : ε) (f : α → Except ε β) :
    exBind (Except.error e) f = Except.error e := rfl

/-- The inner loop preserves `NoBatchInv` in no-batch non-dry-run mode
with no external prerequisite. -/
theorem run_jobs_no_batch_inv (ctx : SubmitArgsCtx)
    (hnb : noBatchMode ctx.cfg.batch_system ctx.no_batch = true)
    (hdry : ctx.dry_run = false) (hup : ctx.user_prereq = none) :
    ∀ (jobs : List (String × Option String)) (st st' : SubmitState),
      NoBatchInv st → run_jobs ctx none jobs st = Except.ok st' → NoBatchInv st' := by
  intro jobs
  induction jobs with
  | nil =>
    intro st st' hI h
    unfold run_jobs at h
    simp only [Except.ok.injEq] at h
    rw [← h]
    exact hI
  | cons jd rest ih =>
    intro st st' hI h
    obtain ⟨job, dependency⟩ := jd
    unfold run_jobs at h
    rw [ssj_no_batch ctx.cfg ctx.cime_cfg ctx.cs job _ ctx.allow_fail ctx.no_batch
      ctx.skip_pnl ctx.mail_user ctx.mail_type ctx.batch_args ctx.dry_run
      ctx.resubmit_immediate hnb] at h
    simp only [exBind_ok] at h
    have hstep : submit_step ctx none st job dependency none =
        { depid := updateAssoc st.depid job none,
          jobcmds := st.jobcmds ++ [(job, none)],
          trace := st.trace ++ [(job, [])],
          last_id := some none } := by
      unfold submit_step submit_batch_job_id
      rw [hdry, hup, dep_jobs_for_empty hI.1 dependency]
      simp only [Bool.false_eq_true, if_false]
    rw [hstep] at h
    have hInv2 : NoBatchInv
        { depid := updateAssoc st.depid job none,
          jobcmds := st.jobcmds ++ [(job, none)],
          trace := st.trace ++ [(job, [])],
          last_id := some none } := by
      refine ⟨updateAssoc_all_none hI.1 job, ?_, Or.inr rfl⟩
      intro tr htr
      rcases List.mem_append.1 htr with hmem | hmem
      · exact hI.2.1 tr hmem
      · rw [List.mem_singleton.1 hmem]
    by_cases hc : ctx.cfg.batchtype = some "cobalt"
    · rw [if_pos hc] at h
      simp only [Except.ok.injEq] at h
      rw [← h]
      exact hInv2
    · rw [if_neg hc] at h
      exact ih _ st' hInv2 h

/-- The round loop preserves `NoBatchInv` in no-batch non-dry-run mode
with no external prerequisite. -/
theorem run_rounds_no_batch_inv (ctx : SubmitArgsCtx)
    (hnb : noBatchMode ctx.cfg.batch_system ctx.no_batch = true)
    (hdry : ctx.dry_run = false) (hup : ctx.user_prereq = none) :
    ∀ (n : Nat) (jobs : List (String × Option String)) (prev : Option String)
      (st st' : SubmitState), prev = none → NoBatchInv st →
      run_rounds ctx jobs n prev st = Except.ok st' → NoBatchInv st' := by
  intro n
  induction n with
  | zero =>
    intro jobs prev st st' _ hI h
    unfold run_rounds at h
    simp only [Except.ok.injEq] at h
    rw [← h]
    exact hI
  | succ m ih =>
    intro jobs prev st st' hprev hI h
    subst hprev
    unfold run_rounds at h
    cases hrj : run_jobs ctx none jobs st with
    | error e => rw [hrj, exBind_error] at h; cases h
    | ok st2 =>
      rw [hrj] at h
      simp only [exBind_ok] at h
      have hI2 := run_jobs_no_batch_inv ctx hnb hdry hup jobs st st2 hI hrj
      rcases hI2.2.2 with hlast | hlast
      · rw [hlast] at h
        replace h : (Except.error "NameError: batch_job_id is not assigned" :
            Except String SubmitState) = Except.ok st' := h
        cases h
      · rw [hlast] at h
        replace h : run_rounds ctx jobs m none st2 = Except.ok st' := h
        exact ih jobs none st2 st' rfl hI2 h

/-- Claim C10: in no-batch mode with `dry_run = false` and no external
prerequisite, `_submit_single_job` returns no identifier for any job, the
`DependencyMap` returned by `submit_jobs` maps every submitted job name
to `none`, and every submission's dependency id set is empty (a `none`
entry is never added, so no dependency clause is ever built). -/
theorem c10_no_batch_ids_none (cfg : BatchConfig) (cime_cfg : CimeConfig)
    (cs : CaseState) (no_batch : Bool) (jobArg : Option String)
    (skip_pnl allow_fail resubmit_immediate : Bool) (mail_user : Option String)
    (mail_type : Option (List String)) (batch_args : Option String)
    (out : SubmitOutput)
    (hnb : noBatchMode cfg.batch_system no_batch = true)
    (hrun : submit_jobs cfg cime_cfg cs no_batch jobArg none skip_pnl allow_fail
      resubmit_immediate mail_user mail_type batch_args false = Except.ok out) :
    (∀ (job : String) (dep_jobs : List String),
      submit_single_job cfg cime_cfg cs job dep_jobs allow_fail no_batch skip_pnl
        mail_user mail_type batch_args false resubmit_immediate = Except.ok none) ∧
    (∀ l, out.ret = SubmitRet.ids l → ∀ p ∈ l, p.2 = none) ∧
    (∀ tr ∈ out.trace, tr.2 = ([] : List String)) := by
  constructor
  · intro job dep_jobs
    exact ssj_no_batch cfg cime_cfg cs job dep_jobs allow_fail no_batch skip_pnl
      mail_user mail_type batch_args false resubmit_immediate hnb
  · unfold submit_jobs at hrun
    cases hs : submit_start_index cfg.jobs jobArg with
    | error e => rw [hs, exBind_error] at hrun; cases hrun
    | ok si =>
      rw [hs] at hrun
      simp only [exBind_ok] at hrun
      cases he : eligible_jobs cfg cs jobArg si false cfg.jobs 0 with
      | error e => rw [he, exBind_error] at hrun; cases hrun
      | ok jobs =>
        rw [he] at hrun
        simp only [exBind_ok] at hrun
        cases hrr : run_rounds
            ⟨cfg, cime_cfg, cs, cfg.jobs, none, skip_pnl, allow_fail, no_batch,
             mail_user, mail_type, batch_args, false, resubmit_immediate⟩
            jobs (plan_resubmit resubmit_immediate cs.resubmit).1 none
            ⟨[], [], [], none⟩ with
        | error e => rw [hrr, exBind_error] at hrun; cases hrun
        | ok st =>
          rw [hrr] at hrun
          simp only [exBind_ok, Except.ok.injEq] at hrun
          have hInv := run_rounds_no_batch_inv
            ⟨cfg, cime_cfg, cs, cfg.jobs, none, skip_pnl, allow_fail, no_batch,
             mail_user, mail_type, batch_args, false, resubmit_immediate⟩
            hnb rfl rfl (plan_resubmit resubmit_immediate cs.resubmit).1 jobs none
            ⟨[], [], [], none⟩ st rfl
            ⟨fun p hp => absurd hp (List.not_mem_nil p),
             fun tr htr => absurd htr (List.not_mem_nil tr), Or.inl rfl⟩ hrr
          rw [← hrun]
          constructor
          · intro l hl p hp
            replace hl : SubmitRet.ids st.depid = SubmitRet.ids l := hl
            injection hl with hl2
            rw [← hl2] at hp
            exact hInv.1 p hp
          · intro tr htr
            replace htr : tr ∈ st.trace := htr
            exact hInv.2.1 tr htr

/-- Claim C10 witness: in the concrete no-batch run,
`_submit_single_job` returns no identifier. -/
theorem c10_no_batch_ids_none_witness :
    submit_single_job noBatchCfg demoCime demoCase "case.run" ["5"] false false
      false none none none false false = Except.ok none :=
  (c10_no_batch_ids_none noBatchCfg demoCime demoCase false none false false
    false none none none noBatchOut (by rfl) (by rfl)).1 "case.run" ["5"]
